import Mathlib

/-!
# First Contact statue firmware: verification of the contact-sensing core

A shallow embedding of the statue-identity / cluster-directory logic
(`StatueConfig.cpp`), the `ContactState` value type (`AudioSense.h`), the
detector-threshold update loop (`updateDetectorThresholds`), and the
spec-described aggregation / configuration-application steps whose bodies
live in `.ino` files outside the provided sources.

Conventions of the embedding:
* C `int` becomes `Int`; array indices that the C code computes as raw
  `int`s stay `Int`, and every raw-indexed array access goes through a
  bounds-checked helper that records an `oobAccess` flag when the C code
  would read or write out of bounds (undefined behaviour).
* C `float` thresholds become `ℚ` (the code only stores and compares them
  with `==`/`!=`, so exact rationals model the control flow faithfully).
* Fixed-size C arrays become functions out of `Fin`.
* JSON documents accepted by the parser become ordered association lists
  of (key, entry) pairs, iterated in document order like `ArduinoJson`.
-/

namespace FirstContact

/-- `#define MAX_STATUES 5` (StatueConfig.h). -/
abbrev MAX_STATUES : Nat := 5

/-- `#define NUM_STATUES 5` (StatueConfig.h). -/
abbrev NUM_STATUES : Nat := 5

/-! ## ContactState (AudioSense.h) -/

/-- The contact-state snapshot, from `struct ContactState` in
`AudioSense.h`: an initialization flag plus the previous and current
link bitmasks (`uint8_t` in C, here `Nat`; the aggregator only ever
produces masks below `2 ^ (NUM_STATUES - 1)`). -/
structure ContactState where
  isInitialized : Bool
  wasLinkedMask : Nat
  isLinkedMask : Nat
deriving Repr, DecidableEq

/-- `bool isLinked() const { return isLinkedMask != 0; }` -/
def ContactState.isLinked (s : ContactState) : Bool :=
  s.isLinkedMask != 0

/-- `bool isLinkedTo(int statueIndex) const
    { return (isLinkedMask & (1 << statueIndex)) != 0; }` -/
def ContactState.isLinkedTo (s : ContactState) (statueIndex : Nat) : Bool :=
  (s.isLinkedMask &&& (1 <<< statueIndex)) != 0

/-- `bool isUnchanged() const
    { return isInitialized && isLinkedMask == wasLinkedMask; }` -/
def ContactState.isUnchanged (s : ContactState) : Bool :=
  s.isInitialized && (s.isLinkedMask == s.wasLinkedMask)

/-! ## Contact State Aggregator (modelled from the spec)

The aggregation step lives in `AudioSense.ino`, which is not among the
provided sources; only its interface (`AudioSense.h`) is. Per the spec's
§4.3 contract, detections are indexed by compacted peer slots
`0 .. NUM_STATUES - 2` (directory order with the node's own entry
skipped), matching the detector layout that `updateDetectorThresholds`
in `StatueConfig.cpp` exhibits. -/

/-- Directory index of the peer occupying compacted detector/bit slot
`d` for a node whose own directory index is `my`: slots below `my` map
to themselves, later slots skip the node's own entry. -/
def statOfSlot (my : Fin MAX_STATUES) (d : Fin (MAX_STATUES - 1)) :
    Fin MAX_STATUES :=
  if d.val < my.val then d.castSucc else d.succ

instance : NeZero (NUM_STATUES - 1) := ⟨by decide⟩

/-- Link bitmask with bit `d` set exactly when detection slot `d` is
true. -/
def maskOfDetections (d : Fin (NUM_STATUES - 1) → Bool) : Nat :=
  (cond (d 0) 1 0) ||| (cond (d 1) 2 0) |||
    (cond (d 2) 4 0) ||| (cond (d 3) 8 0)

/-- Modelled from the spec: the Contact State Aggregator's per-period
step (`AudioSense.ino` is not among the provided sources). Spec §4.3:
"build `currentLinkMask` by setting bit *i* for every peer index with
`detections[i] == true`; set `isInitialized = true` unconditionally
after the first call; set `previousLinkMask =
previousState.currentLinkMask`." -/
def advance (detections : Fin (NUM_STATUES - 1) → Bool)
    (previousState : ContactState) : ContactState :=
  { isInitialized := true
    wasLinkedMask := previousState.isLinkedMask
    isLinkedMask := maskOfDetections detections }

/-- Modelled from the spec: the per-period detection decision of the
Frequency Detection Engine (`sampleDetections`, in `AudioSense.ino`,
not among the provided sources). Spec §4.2(c): "a peer is 'above
threshold' for a period if its measured magnitude ≥
`PerPeerDetector.threshold`". -/
def sampleDetections (magnitudes thresholds : Fin (NUM_STATUES - 1) → ℚ) :
    Fin (NUM_STATUES - 1) → Bool :=
  fun d => thresholds d ≤ magnitudes d

/-! ## Cluster directory documents -/

/-- One statue's entry in a directory document (`DEFAULT_CONFIG_JSON`
schema): every field the code reads is optional, mirroring the
`containsKey` guards in `StatueConfig.cpp`. The `detect` list is never
read by `initStatueConfig` and is omitted. -/
structure StatueEntry where
  emit : Option Int := none
  threshold : Option ℚ := none
  mac_address : Option String := none
  ip_address : Option String := none
deriving Repr, DecidableEq

/-- A parsed directory document: (statue-name key, entry) pairs in
document order. -/
abbrev ConfigDoc := List (String × StatueEntry)

/-- A unit fraction `1 / d`, built directly in lowest terms so that
concrete runs of the embedding reduce inside the kernel. -/
def oneOver (d : Nat) (h : d ≠ 0) : ℚ :=
  ⟨1, d, h, Nat.coprime_one_left d⟩

/-- The float literal `0.01`, the default detection threshold. -/
def defaultThreshold : ℚ := oneOver 100 (by decide)

/-- The compiled-in default directory (`DefaultConfig.h`,
`DEFAULT_CONFIG_JSON`). -/
def defaultConfigDoc : ConfigDoc :=
  [ ("eros", { emit := some 10077, threshold := some defaultThreshold,
               mac_address := some "04:e9:e5:19:06:4c",
               ip_address := some "192.168.4.26" }),
    ("elektra", { emit := some 12274, threshold := some defaultThreshold,
                  mac_address := some "04:e9:e5:19:06:2f",
                  ip_address := some "192.168.4.23" }),
    ("ariel", { emit := some 14643, threshold := some defaultThreshold,
                mac_address := some "04:e9:e5:17:c4:51",
                ip_address := some "192.168.4.24" }),
    ("sophia", { emit := some 17227, threshold := some defaultThreshold,
                 mac_address := some "04:e9:e5:12:93:6b",
                 ip_address := some "192.168.4.25" }),
    ("ultimo", { emit := some 19467, threshold := some defaultThreshold,
                 mac_address := some "04:e9:e5:12:93:68",
                 ip_address := some "192.168.4.27" }) ]

/-! ## Global configuration state (StatueConfig.cpp) -/

/-- The process-wide configuration variables defined at the top of
`StatueConfig.cpp`, plus the `detectorThresholds` array it updates
(declared `extern float detectorThresholds[MAX_STATUES - 1]`).
`MY_STATUE_NAME` is a `const char *` into `STATUE_NAMES`; we store the
pointed-to string value. `oobAccess` records whether any raw-index
array access fell outside the array's bounds (undefined behaviour in
the C code). -/
structure ConfigState where
  THIS_STATUE_ID : Int
  MY_STATUE_INDEX : Int
  MY_TX_FREQ : Int
  MY_STATUE_NAME : String
  STATUE_FREQUENCIES : Fin MAX_STATUES → Int
  STATUE_NAMES : Fin MAX_STATUES → String
  STATUE_THRESHOLDS : Fin MAX_STATUES → ℚ
  detectorThresholds : Fin (MAX_STATUES - 1) → ℚ
  oobAccess : Bool

/-- Boot-time values of the globals (`StatueConfig.cpp` lines 10–21:
`'A'`, `0`, `10077`, `"EROS"`, the default frequency/name/threshold
tables). The initial `detectorThresholds` array is defined in
`AudioSense.ino` (not among the provided sources) and is a parameter. -/
def initialConfigState (det0 : Fin (MAX_STATUES - 1) → ℚ) : ConfigState :=
  { THIS_STATUE_ID := 65
    MY_STATUE_INDEX := 0
    MY_TX_FREQ := 10077
    MY_STATUE_NAME := "EROS"
    STATUE_FREQUENCIES := ![10077, 12274, 14643, 17227, 19467]
    STATUE_NAMES := !["EROS", "ELEKTRA", "ARIEL", "SOPHIA", "ULTIMO"]
    STATUE_THRESHOLDS := fun _ => defaultThreshold
    detectorThresholds := det0
    oobAccess := false }

/-- ASCII upper-casing of a statue name (the `String::toUpperCase()` of
the Arduino `String` class), written structurally on the character
list so that concrete runs reduce inside the kernel. -/
def toUpperString (s : String) : String :=
  ⟨s.data.map Char.toUpper⟩

/-- `strncpy(dst, src, 9)` followed by a forced NUL terminator
(`StatueConfig.cpp` lines 134–135): keep at most 9 characters. -/
def truncate9 (s : String) : String :=
  ⟨s.data.take 9⟩

/-- `getStatueIndex` (StatueConfig.cpp): map a statue name to its fixed
index, case-insensitively; `-1` for an unknown statue. -/
def getStatueIndex (name : String) : Int :=
  let nameUpper := toUpperString name
  if nameUpper = "EROS" then 0
  else if nameUpper = "ELEKTRA" then 1
  else if nameUpper = "ARIEL" then 2
  else if nameUpper = "SOPHIA" then 3
  else if nameUpper = "ULTIMO" then 4
  else -1

/-- The first pass of `initStatueConfig`: find the first document entry
whose `ip_address` field is present and equals this node's IP (the C
loop checks `containsKey("ip_address")` and compares, then `break`s). -/
def findMyStatue (doc : ConfigDoc) (myIp : String) :
    Option (String × StatueEntry) :=
  doc.find? (fun kv => kv.2.ip_address == some myIp)

/-- Document-order position of the entry `findMyStatue` would match
(used to state the spec's "position of its address in the document"). -/
def matchedPosition (doc : ConfigDoc) (myIp : String) : Option Nat :=
  match doc with
  | [] => none
  | kv :: rest =>
      if kv.2.ip_address == some myIp then some 0
      else (matchedPosition rest myIp).map (· + 1)

/-- The raw array read `STATUE_NAMES[idx]` with a C `int` index
(`StatueConfig.cpp` lines 96–97 and 141): in bounds it assigns
`MY_STATUE_NAME`; out of bounds it is undefined behaviour, recorded in
`oobAccess`. -/
def readNameAt (st : ConfigState) (idx : Int) : ConfigState :=
  if h : 0 ≤ idx ∧ idx < (MAX_STATUES : Int) then
    { st with MY_STATUE_NAME := st.STATUE_NAMES ⟨idx.toNat, by omega⟩ }
  else
    { st with oobAccess := true }

/-- The body of the first-pass match (`StatueConfig.cpp` lines 86–97):
set `MY_STATUE_INDEX` from the statue name, `THIS_STATUE_ID = 'A' +
MY_STATUE_INDEX` (65 is `'A'`), `MY_TX_FREQ` from `emit` when present,
and `MY_STATUE_NAME = STATUE_NAMES[MY_STATUE_INDEX]`. -/
def applyIdentity (st : ConfigState) (statueName : String)
    (e : StatueEntry) : ConfigState :=
  let idx := getStatueIndex statueName
  let st1 := { st with MY_STATUE_INDEX := idx, THIS_STATUE_ID := 65 + idx }
  let st2 :=
    match e.emit with
    | some f => { st1 with MY_TX_FREQ := f }
    | none => st1
  readNameAt st2 idx

/-- One iteration of the second pass (`StatueConfig.cpp` lines
116–137): for a recognized statue name (`0 ≤ idx < MAX_STATUES`),
overwrite the frequency and threshold entries that are present and
store the uppercased name truncated to 9 characters
(`strncpy(..., 9)` plus forced NUL). -/
def populateEntry (st : ConfigState) (statueName : String)
    (e : StatueEntry) : ConfigState :=
  let idx := getStatueIndex statueName
  if h : 0 ≤ idx ∧ idx < (MAX_STATUES : Int) then
    let i : Fin MAX_STATUES := ⟨idx.toNat, by omega⟩
    let st1 :=
      match e.emit with
      | some f =>
          { st with STATUE_FREQUENCIES :=
              Function.update st.STATUE_FREQUENCIES i f }
      | none => st
    let st2 :=
      match e.threshold with
      | some t =>
          { st1 with STATUE_THRESHOLDS :=
              Function.update st1.STATUE_THRESHOLDS i t }
      | none => st1
    let newName := truncate9 (toUpperString statueName)
    { st2 with STATUE_NAMES := Function.update st2.STATUE_NAMES i newName }
  else
    st

/-- Accumulator of the `updateDetectorThresholds` loop: the running
`detectorIndex`, the detector-threshold array, the `anyChanged` flag,
and the out-of-bounds marker. -/
structure DetLoopState where
  detectorIndex : Nat
  det : Fin (MAX_STATUES - 1) → ℚ
  anyChanged : Bool
  oob : Bool

/-- One iteration of the `updateDetectorThresholds` loop
(`StatueConfig.cpp` lines 180–206): skip the node's own statue;
otherwise compare `detectorThresholds[detectorIndex]` with the target
statue's threshold, write it when different, and advance
`detectorIndex`. When `detectorIndex` reaches `MAX_STATUES - 1` the C
code reads (and possibly writes) past the end of the array; the model
flags `oob` and leaves the array unchanged. -/
def detStep (my : Int) (sth : Fin MAX_STATUES → ℚ) (ls : DetLoopState)
    (statue_idx : Fin NUM_STATUES) : DetLoopState :=
  if (statue_idx.val : Int) ≠ my then
    if h : ls.detectorIndex < MAX_STATUES - 1 then
      let i : Fin (MAX_STATUES - 1) := ⟨ls.detectorIndex, h⟩
      let oldThreshold := ls.det i
      let newThreshold := sth statue_idx
      { detectorIndex := ls.detectorIndex + 1
        det := if oldThreshold ≠ newThreshold then
                 Function.update ls.det i newThreshold
               else ls.det
        anyChanged := ls.anyChanged || decide (oldThreshold ≠ newThreshold)
        oob := ls.oob }
    else
      { ls with detectorIndex := ls.detectorIndex + 1, oob := true }
  else
    ls

/-- Result of `updateDetectorThresholds`: the updated
`detectorThresholds` array, whether any threshold changed (the
`anyChanged` flag driving the function's observable logging), and
whether the loop indexed past the end of the array. -/
structure DetUpdateResult where
  detectorThresholds : Fin (MAX_STATUES - 1) → ℚ
  anyChanged : Bool
  oob : Bool

/-- `updateDetectorThresholds` (StatueConfig.cpp lines 176–211): walk
the statue indices `0 .. NUM_STATUES - 1` in order, skipping
`MY_STATUE_INDEX`, and assign each remaining statue's threshold to the
next detector slot. -/
def updateDetectorThresholds (my : Int) (sth : Fin MAX_STATUES → ℚ)
    (det : Fin (MAX_STATUES - 1) → ℚ) : DetUpdateResult :=
  let r := (List.finRange NUM_STATUES).foldl (detStep my sth)
    { detectorIndex := 0, det := det, anyChanged := false, oob := false }
  { detectorThresholds := r.det, anyChanged := r.anyChanged, oob := r.oob }

/-- `initStatueConfig` (StatueConfig.cpp lines 46–172) on an already
accepted document: the identity-resolving first pass with its `break`,
the directory-populating second pass, the guarded
`MY_STATUE_NAME = STATUE_NAMES[MY_STATUE_INDEX]` refresh, and the
final `updateDetectorThresholds()` call. Returns the C function's
`bool` (false when no entry matched this node's IP) and the final
global state. -/
def initStatueConfig (doc : ConfigDoc) (myIp : String)
    (st0 : ConfigState) : Bool × ConfigState :=
  let m := findMyStatue doc myIp
  let configFound := m.isSome
  let st1 :=
    match m with
    | some (nm, e) => applyIdentity st0 nm e
    | none => st0
  let st2 := doc.foldl (fun st kv => populateEntry st kv.1 kv.2) st1
  let st3 :=
    if configFound then readNameAt st2 st2.MY_STATUE_INDEX else st2
  let r := updateDetectorThresholds st3.MY_STATUE_INDEX
    st3.STATUE_THRESHOLDS st3.detectorThresholds
  (configFound,
   { st3 with detectorThresholds := r.detectorThresholds,
              oobAccess := st3.oobAccess || r.oob })

/-! ## Fleet Configuration Sync (Messaging.h) -/

/-- `struct TeensyConfig` (Messaging.h): the runtime configuration a
node receives from the Pi. `detectStatues` is informational and
unused by the threshold path. -/
structure TeensyConfig where
  threshold : ℚ := 1/100
  emitFreq : Int := 0
  ipAddress : String := ""
  macAddress : String := ""
deriving Repr, DecidableEq

/-- Modelled from the spec: `applyConfig` (declared in `Messaging.h`,
body in `Messaging.ino`, not among the provided sources). Spec §4.4:
it "pushes every changed `RuntimeConfig` field into the Frequency
Detection Engine ... via their reconfiguration entry points" — here
the single configurable `threshold` is pushed through
`updateDetectionThreshold` (AudioSense.h), which sets the engine's
detection threshold; the `TeensyConfig` itself is not modified. -/
def applyConfig (cfg : TeensyConfig)
    (_det : Fin (MAX_STATUES - 1) → ℚ) :
    TeensyConfig × (Fin (MAX_STATUES - 1) → ℚ) :=
  (cfg, fun _ => cfg.threshold)

/-! ## Helper lemmas: the link mask -/

lemma maskOfDetections_lt (d : Fin (NUM_STATUES - 1) → Bool) :
    maskOfDetections d < 2 ^ (NUM_STATUES - 1) := by
  revert d; decide

lemma isLinkedTo_advance (dets : Fin (NUM_STATUES - 1) → Bool)
    (prev : ContactState) (i : Nat) :
    (advance dets prev).isLinkedTo i = true ↔
      ∃ h : i < NUM_STATUES - 1, dets ⟨i, h⟩ = true := by
  rcases lt_or_ge i (NUM_STATUES - 1) with hi | hi
  · interval_cases i <;>
      (simp only [advance, ContactState.isLinkedTo]; revert dets; decide)
  · have hmask : (advance dets prev).isLinkedMask &&& (1 <<< i) = 0 := by
      have h1 : (1 : Nat) <<< i = 2 ^ i := by
        rw [Nat.shiftLeft_eq, one_mul]
      have h2 : maskOfDetections dets < 2 ^ i := by
        calc maskOfDetections dets < 2 ^ (NUM_STATUES - 1) :=
              maskOfDetections_lt dets
          _ ≤ 2 ^ i := Nat.pow_le_pow_right (by norm_num) hi
      show maskOfDetections dets &&& (1 <<< i) = 0
      rw [h1, Nat.and_two_pow, Nat.testBit_eq_false_of_lt h2]
      simp
    constructor
    · intro h
      exact absurd hmask (by simpa [ContactState.isLinkedTo] using h)
    · rintro ⟨h, _⟩
      omega

lemma isLinked_advance (dets : Fin (NUM_STATUES - 1) → Bool)
    (prev : ContactState) :
    (advance dets prev).isLinked = true ↔
      ∃ i, (advance dets prev).isLinkedTo i = true := by
  have key : ∀ dv : Fin (NUM_STATUES - 1) → Bool,
      (maskOfDetections dv != 0) = true ↔ ∃ j : Fin (NUM_STATUES - 1),
        ((maskOfDetections dv &&& (1 <<< j.val)) != 0) = true := by
    decide
  constructor
  · intro h
    obtain ⟨j, hj⟩ := (key dets).mp (by simpa [advance, ContactState.isLinked] using h)
    exact ⟨j.val, by simpa [advance, ContactState.isLinkedTo] using hj⟩
  · rintro ⟨i, hi⟩
    obtain ⟨hlt, hd⟩ := (isLinkedTo_advance dets prev i).mp hi
    have hj : ((maskOfDetections dets &&&
        (1 <<< ((⟨i, hlt⟩ : Fin (NUM_STATUES - 1)) : Nat))) != 0) = true := by
      simpa [advance, ContactState.isLinkedTo] using hi
    have hne := (key dets).mpr ⟨⟨i, hlt⟩, hj⟩
    simpa [advance, ContactState.isLinked] using hne

/-! ## Helper lemmas: the detector-threshold loop

`updateDetectorThresholds` is analysed by splitting its fold: iterations
on the node's own statue index do nothing, and every other iteration is
a `detPush` that works on the next detector slot. -/

lemma if_update_ne_outside (f : Fin (MAX_STATUES - 1) → ℚ)
    (i : Fin (MAX_STATUES - 1)) (v : ℚ) (slot : Fin (MAX_STATUES - 1))
    (h : slot.val ≠ i.val) :
    (if f i ≠ v then Function.update f i v else f) slot = f slot := by
  by_cases hc : f i ≠ v
  · rw [if_pos hc, Function.update_noteq (fun hs => h (by rw [hs]))]
  · rw [if_neg hc]

/-- The body of a non-self iteration of the `updateDetectorThresholds`
loop. -/
def detPush (sth : Fin MAX_STATUES → ℚ) (ls : DetLoopState)
    (s : Fin NUM_STATUES) : DetLoopState :=
  if h : ls.detectorIndex < MAX_STATUES - 1 then
    let i : Fin (MAX_STATUES - 1) := ⟨ls.detectorIndex, h⟩
    { detectorIndex := ls.detectorIndex + 1
      det := if ls.det i ≠ sth s then Function.update ls.det i (sth s)
             else ls.det
      anyChanged := ls.anyChanged || decide (ls.det i ≠ sth s)
      oob := ls.oob }
  else
    { ls with detectorIndex := ls.detectorIndex + 1, oob := true }

lemma detStep_eq_detPush (my : Int) (sth : Fin MAX_STATUES → ℚ)
    (ls : DetLoopState) (s : Fin NUM_STATUES) :
    detStep my sth ls s =
      if (s.val : Int) ≠ my then detPush sth ls s else ls := by
  unfold detStep detPush
  by_cases hc : (s.val : Int) ≠ my
  · rw [if_pos hc]
  · rw [if_neg hc]

lemma foldl_detStep_filter (my : Int) (sth : Fin MAX_STATUES → ℚ)
    (L : List (Fin NUM_STATUES)) (ls : DetLoopState) :
    L.foldl (detStep my sth) ls =
      (L.filter fun s => decide ((s.val : Int) ≠ my)).foldl
        (detPush sth) ls := by
  induction L generalizing ls with
  | nil => rfl
  | cons a L ih =>
    rw [List.foldl_cons, ih, List.filter_cons]
    by_cases hc : (a.val : Int) ≠ my
    · rw [if_pos (by simpa using hc), List.foldl_cons,
        detStep_eq_detPush, if_pos hc]
    · rw [if_neg (by simpa using hc), detStep_eq_detPush, if_neg hc]

lemma foldl_detPush_spec (sth : Fin MAX_STATUES → ℚ)
    (L : List (Fin NUM_STATUES)) :
    ∀ (k : Nat) (f : Fin (MAX_STATUES - 1) → ℚ) (ac ob : Bool),
      k + L.length ≤ MAX_STATUES - 1 →
      (L.foldl (detPush sth) ⟨k, f, ac, ob⟩).detectorIndex = k + L.length ∧
      (L.foldl (detPush sth) ⟨k, f, ac, ob⟩).oob = ob ∧
      ∀ slot : Fin (MAX_STATUES - 1),
        (L.foldl (detPush sth) ⟨k, f, ac, ob⟩).det slot =
          if k ≤ slot.val ∧ slot.val < k + L.length
          then sth (L.getD (slot.val - k) 0)
          else f slot := by
  induction L with
  | nil =>
    intro k f ac ob hlen
    refine ⟨rfl, rfl, fun slot => ?_⟩
    rw [if_neg (by simp only [List.length_nil]; omega)]
    rfl
  | cons a L ih =>
    intro k f ac ob hlen
    simp only [List.length_cons] at hlen
    have hidx : k < MAX_STATUES - 1 := by omega
    have hpush : detPush sth ⟨k, f, ac, ob⟩ a =
        ⟨k + 1,
         if f ⟨k, hidx⟩ ≠ sth a then
           Function.update f ⟨k, hidx⟩ (sth a)
         else f,
         ac || decide (f ⟨k, hidx⟩ ≠ sth a), ob⟩ := by
      unfold detPush
      rw [dif_pos hidx]
    obtain ⟨ihidx, ihoob, ihdet⟩ := ih (k + 1)
      (if f ⟨k, hidx⟩ ≠ sth a then
         Function.update f ⟨k, hidx⟩ (sth a)
       else f)
      (ac || decide (f ⟨k, hidx⟩ ≠ sth a)) ob (by omega)
    rw [List.foldl_cons, hpush]
    refine ⟨?_, ihoob, fun slot => ?_⟩
    · rw [ihidx]
      simp only [List.length_cons]
      omega
    · rw [ihdet slot]
      simp only [List.length_cons]
      by_cases hlo : k + 1 ≤ slot.val
      · by_cases hhi : slot.val < k + 1 + L.length
        · have hk : slot.val - k = (slot.val - (k + 1)) + 1 := by omega
          have c2 : k ≤ slot.val ∧ slot.val < k + (L.length + 1) :=
            ⟨by omega, by omega⟩
          rw [if_pos ⟨hlo, hhi⟩, if_pos c2, hk, List.getD_cons_succ]
        · have c1 : ¬(k + 1 ≤ slot.val ∧ slot.val < k + 1 + L.length) := by
            omega
          have c2 : ¬(k ≤ slot.val ∧ slot.val < k + (L.length + 1)) := by
            omega
          rw [if_neg c1, if_neg c2]
          exact if_update_ne_outside f ⟨k, hidx⟩ (sth a) slot
            (show slot.val ≠ k by omega)
      · by_cases heq : slot.val = k
        · have hzero : slot.val - k = 0 := by omega
          have hslot : slot = ⟨k, hidx⟩ := Fin.ext heq
          have c1 : ¬(k + 1 ≤ slot.val ∧ slot.val < k + 1 + L.length) := by
            omega
          have c2 : k ≤ slot.val ∧ slot.val < k + (L.length + 1) :=
            ⟨by omega, by omega⟩
          rw [if_neg c1, if_pos c2, hzero, List.getD_cons_zero, hslot]
          by_cases hne : f ⟨k, hidx⟩ ≠ sth a
          · rw [if_pos hne, Function.update_same]
          · rw [if_neg hne]
            push_neg at hne
            exact hne
        · have c1 : ¬(k + 1 ≤ slot.val ∧ slot.val < k + 1 + L.length) := by
            omega
          have c2 : ¬(k ≤ slot.val ∧ slot.val < k + (L.length + 1)) := by
            omega
          rw [if_neg c1, if_neg c2]
          exact if_update_ne_outside f ⟨k, hidx⟩ (sth a) slot
            (show slot.val ≠ k by omega)

lemma foldl_detPush_stable (sth : Fin MAX_STATUES → ℚ)
    (L : List (Fin NUM_STATUES)) :
    ∀ (k : Nat) (f : Fin (MAX_STATUES - 1) → ℚ) (ob : Bool),
      k + L.length ≤ MAX_STATUES - 1 →
      (∀ (j : Nat), j < L.length →
        ∀ hs : k + j < MAX_STATUES - 1, f ⟨k + j, hs⟩ = sth (L.getD j 0)) →
      L.foldl (detPush sth) ⟨k, f, false, ob⟩ =
        ⟨k + L.length, f, false, ob⟩ := by
  induction L with
  | nil =>
    intro k f ob _ _
    rfl
  | cons a L ih =>
    intro k f ob hlen hst
    simp only [List.length_cons] at hlen
    have hidx : k < MAX_STATUES - 1 := by omega
    have heq : f ⟨k, hidx⟩ = sth a := by
      have h0 := hst 0 (by simp only [List.length_cons]; omega) (by omega)
      simpa using h0
    have hpush : detPush sth ⟨k, f, false, ob⟩ a = ⟨k + 1, f, false, ob⟩ := by
      unfold detPush
      rw [dif_pos hidx]
      simp [heq]
    have hst' : ∀ (j : Nat), j < L.length →
        ∀ hs : (k + 1) + j < MAX_STATUES - 1,
          f ⟨(k + 1) + j, hs⟩ = sth (L.getD j 0) := by
      intro j hj hs
      have h2 := hst (j + 1) (by simp only [List.length_cons]; omega)
        (by omega)
      rw [List.getD_cons_succ] at h2
      convert h2 using 2
      exact Fin.ext (show k + 1 + j = k + (j + 1) by omega)
    rw [List.foldl_cons, hpush, ih (k + 1) f ob (by omega) hst']
    have harith : k + 1 + L.length = k + (L.length + 1) := by omega
    simp only [List.length_cons, harith]

/-- The node's peers in directory order (own entry skipped): the list
of statue indices that the `updateDetectorThresholds` loop visits in
its non-self iterations. -/
def peers (my : Fin MAX_STATUES) : List (Fin NUM_STATUES) :=
  [statOfSlot my ⟨0, by decide⟩, statOfSlot my ⟨1, by decide⟩,
   statOfSlot my ⟨2, by decide⟩, statOfSlot my ⟨3, by decide⟩]

lemma peersOfMy (my : Fin MAX_STATUES) :
    ((List.finRange NUM_STATUES).filter
      fun s => decide ((s.val : Int) ≠ (my.val : Int))) = peers my := by
  fin_cases my <;> decide

lemma updateDetectorThresholds_det (my : Fin MAX_STATUES)
    (sth : Fin MAX_STATUES → ℚ) (det : Fin (MAX_STATUES - 1) → ℚ) :
    (updateDetectorThresholds ((my.val : Int)) sth det).detectorThresholds
        = (fun slot => sth (statOfSlot my slot)) ∧
    (updateDetectorThresholds ((my.val : Int)) sth det).oob = false := by
  simp only [updateDetectorThresholds]
  rw [foldl_detStep_filter, peersOfMy]
  obtain ⟨hidx, hoob, hdet⟩ :=
    foldl_detPush_spec sth (peers my) 0 det false false
      (show 0 + 4 ≤ 4 by omega)
  refine ⟨funext fun slot => ?_, hoob⟩
  rw [hdet slot]
  have h4 : slot.val < 4 := slot.isLt
  rw [if_pos ⟨Nat.zero_le _, show slot.val < 0 + 4 by omega⟩]
  fin_cases slot <;> rfl

lemma updateDetectorThresholds_stable (my : Fin MAX_STATUES)
    (sth : Fin MAX_STATUES → ℚ) :
    updateDetectorThresholds ((my.val : Int)) sth
        (fun slot => sth (statOfSlot my slot)) =
      { detectorThresholds := fun slot => sth (statOfSlot my slot)
        anyChanged := false
        oob := false } := by
  simp only [updateDetectorThresholds]
  rw [foldl_detStep_filter, peersOfMy]
  have hst : ∀ (j : Nat), j < (peers my).length →
      ∀ hs : 0 + j < MAX_STATUES - 1,
        (fun slot => sth (statOfSlot my slot)) ⟨0 + j, hs⟩ =
          sth ((peers my).getD j 0) := by
    intro j hj hs
    have hj4 : j < 4 := hj
    interval_cases j <;> rfl
  rw [foldl_detPush_stable sth (peers my) 0 _ false
    (show 0 + 4 ≤ 4 by omega) hst]

/-! ## Helper lemmas: initStatueConfig -/

lemma populateEntry_frame (st : ConfigState) (nm : String) (e : StatueEntry) :
    ∃ F T N, populateEntry st nm e =
      { st with STATUE_FREQUENCIES := F, STATUE_THRESHOLDS := T,
                STATUE_NAMES := N } := by
  obtain ⟨em, th, mac, ipf⟩ := e
  unfold populateEntry
  by_cases hb : 0 ≤ getStatueIndex nm ∧
      getStatueIndex nm < (MAX_STATUES : Int)
  · rw [dif_pos hb]
    cases em <;> cases th <;> exact ⟨_, _, _, rfl⟩
  · rw [dif_neg hb]
    exact ⟨st.STATUE_FREQUENCIES, st.STATUE_THRESHOLDS, st.STATUE_NAMES, rfl⟩

lemma foldPopulate_frame (doc : ConfigDoc) (st : ConfigState) :
    ∃ F T N, doc.foldl (fun st kv => populateEntry st kv.1 kv.2) st =
      { st with STATUE_FREQUENCIES := F, STATUE_THRESHOLDS := T,
                STATUE_NAMES := N } := by
  induction doc generalizing st with
  | nil => exact ⟨st.STATUE_FREQUENCIES, st.STATUE_THRESHOLDS,
      st.STATUE_NAMES, rfl⟩
  | cons kv doc ih =>
    obtain ⟨F, T, N, hf⟩ := populateEntry_frame st kv.1 kv.2
    rw [List.foldl_cons, hf]
    obtain ⟨F2, T2, N2, hf2⟩ := ih
      { st with STATUE_FREQUENCIES := F, STATUE_THRESHOLDS := T,
                STATUE_NAMES := N }
    rw [hf2]
    exact ⟨F2, T2, N2, rfl⟩

lemma readNameAt_frame (st : ConfigState) (idx : Int) :
    ∃ name ob, readNameAt st idx =
      { st with MY_STATUE_NAME := name, oobAccess := ob } := by
  unfold readNameAt
  by_cases hb : 0 ≤ idx ∧ idx < (MAX_STATUES : Int)
  · rw [dif_pos hb]
    exact ⟨_, st.oobAccess, rfl⟩
  · rw [dif_neg hb]
    exact ⟨st.MY_STATUE_NAME, true, rfl⟩

lemma applyIdentity_fields (st : ConfigState) (nm : String) (e : StatueEntry) :
    (applyIdentity st nm e).MY_STATUE_INDEX = getStatueIndex nm ∧
    (applyIdentity st nm e).THIS_STATUE_ID = 65 + getStatueIndex nm ∧
    (applyIdentity st nm e).MY_TX_FREQ =
      (match e.emit with | some f => f | none => st.MY_TX_FREQ) ∧
    (applyIdentity st nm e).STATUE_FREQUENCIES = st.STATUE_FREQUENCIES ∧
    (applyIdentity st nm e).STATUE_NAMES = st.STATUE_NAMES ∧
    (applyIdentity st nm e).STATUE_THRESHOLDS = st.STATUE_THRESHOLDS ∧
    (applyIdentity st nm e).detectorThresholds = st.detectorThresholds := by
  obtain ⟨em, th, mac, ipf⟩ := e
  unfold applyIdentity readNameAt
  cases em <;> dsimp only <;>
    refine ⟨?_, ?_, ?_, ?_, ?_, ?_, ?_⟩ <;> split <;> rfl

lemma foldPopulate_ident (doc : ConfigDoc) (st : ConfigState) :
    (doc.foldl (fun st kv => populateEntry st kv.1 kv.2)
        st).MY_STATUE_INDEX = st.MY_STATUE_INDEX ∧
    (doc.foldl (fun st kv => populateEntry st kv.1 kv.2)
        st).THIS_STATUE_ID = st.THIS_STATUE_ID ∧
    (doc.foldl (fun st kv => populateEntry st kv.1 kv.2)
        st).MY_TX_FREQ = st.MY_TX_FREQ ∧
    (doc.foldl (fun st kv => populateEntry st kv.1 kv.2)
        st).MY_STATUE_NAME = st.MY_STATUE_NAME ∧
    (doc.foldl (fun st kv => populateEntry st kv.1 kv.2)
        st).detectorThresholds = st.detectorThresholds ∧
    (doc.foldl (fun st kv => populateEntry st kv.1 kv.2)
        st).oobAccess = st.oobAccess := by
  obtain ⟨F, T, N, hf⟩ := foldPopulate_frame doc st
  rw [hf]
  exact ⟨rfl, rfl, rfl, rfl, rfl, rfl⟩

lemma findMyStatue_none (doc : ConfigDoc) (ip : String)
    (h : ∀ kv ∈ doc, kv.2.ip_address ≠ some ip) :
    findMyStatue doc ip = none := by
  unfold findMyStatue
  rw [List.find?_eq_none]
  intro x hx
  simpa using h x hx

lemma find_matchedPosition (doc : ConfigDoc) (ip : String) :
    ∀ nm e, findMyStatue doc ip = some (nm, e) →
      ∃ k, matchedPosition doc ip = some k ∧
        ∃ hk : k < doc.length, doc.get ⟨k, hk⟩ = (nm, e) := by
  induction doc with
  | nil =>
    intro nm e h
    simp [findMyStatue] at h
  | cons kv rest ih =>
    intro nm e h
    unfold findMyStatue at h
    rw [List.find?_cons] at h
    unfold matchedPosition
    by_cases hp : (kv.2.ip_address == some ip) = true
    · simp only [hp] at h ⊢
      refine ⟨0, by simp, by simp, ?_⟩
      simpa using h
    · have hp2 : (kv.2.ip_address == some ip) = false := by
        simpa using hp
      simp only [hp2] at h ⊢
      obtain ⟨k, hk1, hk2, hk3⟩ := ih nm e h
      refine ⟨k + 1, ?_, ?_, ?_⟩
      · rw [hk1]
        rfl
      · simp only [List.length_cons]
        omega
      · simpa using hk3

lemma populateEntry_slot_ne (st : ConfigState) (nm : String)
    (e : StatueEntry) (i : Fin MAX_STATUES)
    (h : getStatueIndex nm ≠ (i.val : Int)) :
    (populateEntry st nm e).STATUE_FREQUENCIES i
        = st.STATUE_FREQUENCIES i ∧
    (populateEntry st nm e).STATUE_THRESHOLDS i
        = st.STATUE_THRESHOLDS i ∧
    (populateEntry st nm e).STATUE_NAMES i = st.STATUE_NAMES i := by
  obtain ⟨em, th, mac, ipf⟩ := e
  unfold populateEntry
  by_cases hb : 0 ≤ getStatueIndex nm ∧
      getStatueIndex nm < (MAX_STATUES : Int)
  · rw [dif_pos hb]
    have hne : i ≠ (⟨(getStatueIndex nm).toNat, by omega⟩ :
        Fin MAX_STATUES) := by
      intro hEq
      apply h
      have hv : (i.val : Int) = getStatueIndex nm := by
        rw [hEq]
        simp [Int.toNat_of_nonneg hb.1]
      exact hv.symm
    cases em <;> cases th <;>
      simp [Function.update_noteq hne]
  · rw [dif_neg hb]
    exact ⟨rfl, rfl, rfl⟩

lemma populateEntry_slot_eq (st : ConfigState) (nm : String)
    (e : StatueEntry) (i : Fin MAX_STATUES)
    (h : getStatueIndex nm = (i.val : Int)) :
    (populateEntry st nm e).STATUE_FREQUENCIES i
        = e.emit.getD (st.STATUE_FREQUENCIES i) ∧
    (populateEntry st nm e).STATUE_THRESHOLDS i
        = e.threshold.getD (st.STATUE_THRESHOLDS i) ∧
    (populateEntry st nm e).STATUE_NAMES i
        = truncate9 (toUpperString nm) := by
  obtain ⟨em, th, mac, ipf⟩ := e
  unfold populateEntry
  have hb : 0 ≤ getStatueIndex nm ∧
      getStatueIndex nm < (MAX_STATUES : Int) := by
    rw [h]
    exact ⟨Int.natCast_nonneg _, by exact_mod_cast i.isLt⟩
  rw [dif_pos hb]
  have hfin : (⟨(getStatueIndex nm).toNat, by omega⟩ : Fin MAX_STATUES)
      = i := by
    apply Fin.ext
    show (getStatueIndex nm).toNat = i.val
    rw [h, Int.toNat_natCast]
  cases em <;> cases th <;> (rw [← hfin]; simp)

lemma foldPopulate_slot_ne (doc : ConfigDoc) (st : ConfigState)
    (i : Fin MAX_STATUES)
    (h : ∀ kv ∈ doc, getStatueIndex kv.1 ≠ (i.val : Int)) :
    (doc.foldl (fun st kv => populateEntry st kv.1 kv.2)
        st).STATUE_FREQUENCIES i = st.STATUE_FREQUENCIES i ∧
    (doc.foldl (fun st kv => populateEntry st kv.1 kv.2)
        st).STATUE_THRESHOLDS i = st.STATUE_THRESHOLDS i ∧
    (doc.foldl (fun st kv => populateEntry st kv.1 kv.2)
        st).STATUE_NAMES i = st.STATUE_NAMES i := by
  induction doc generalizing st with
  | nil => exact ⟨rfl, rfl, rfl⟩
  | cons kv doc ih =>
    obtain ⟨h1, h2, h3⟩ := populateEntry_slot_ne st kv.1 kv.2 i
      (h kv (by simp))
    obtain ⟨g1, g2, g3⟩ := ih (populateEntry st kv.1 kv.2)
      (fun kv2 hkv2 => h kv2 (by simp [hkv2]))
    rw [List.foldl_cons]
    exact ⟨g1.trans h1, g2.trans h2, g3.trans h3⟩

lemma initStatueConfig_secondPass (doc : ConfigDoc) (ip : String)
    (st0 : ConfigState) :
    ∃ st1 : ConfigState,
      st1.STATUE_FREQUENCIES = st0.STATUE_FREQUENCIES ∧
      st1.STATUE_THRESHOLDS = st0.STATUE_THRESHOLDS ∧
      st1.STATUE_NAMES = st0.STATUE_NAMES ∧
      (initStatueConfig doc ip st0).2.STATUE_FREQUENCIES =
        (doc.foldl (fun st kv => populateEntry st kv.1 kv.2)
          st1).STATUE_FREQUENCIES ∧
      (initStatueConfig doc ip st0).2.STATUE_THRESHOLDS =
        (doc.foldl (fun st kv => populateEntry st kv.1 kv.2)
          st1).STATUE_THRESHOLDS ∧
      (initStatueConfig doc ip st0).2.STATUE_NAMES =
        (doc.foldl (fun st kv => populateEntry st kv.1 kv.2)
          st1).STATUE_NAMES := by
  unfold initStatueConfig
  cases hm : findMyStatue doc ip with
  | none =>
    refine ⟨st0, rfl, rfl, rfl, ?_, ?_, ?_⟩ <;> simp [hm]
  | some x =>
    obtain ⟨nm2, e2⟩ := x
    obtain ⟨_, _, _, ha4, ha5, ha6, _⟩ := applyIdentity_fields st0 nm2 e2
    obtain ⟨name3, ob3, hrn⟩ := readNameAt_frame
      (doc.foldl (fun st kv => populateEntry st kv.1 kv.2)
        (applyIdentity st0 nm2 e2))
      (doc.foldl (fun st kv => populateEntry st kv.1 kv.2)
        (applyIdentity st0 nm2 e2)).MY_STATUE_INDEX
    refine ⟨applyIdentity st0 nm2 e2, ha4, ha6, ha5, ?_, ?_, ?_⟩ <;>
      simp [hm, hrn]

lemma readNameAt_ident (st : ConfigState) (idx : Int) :
    (readNameAt st idx).MY_STATUE_INDEX = st.MY_STATUE_INDEX ∧
    (readNameAt st idx).THIS_STATUE_ID = st.THIS_STATUE_ID ∧
    (readNameAt st idx).MY_TX_FREQ = st.MY_TX_FREQ := by
  obtain ⟨name, ob, hrn⟩ := readNameAt_frame st idx
  rw [hrn]
  exact ⟨rfl, rfl, rfl⟩

lemma initStatueConfig_found (doc : ConfigDoc) (ip : String)
    (st0 : ConfigState) (nm : String) (e : StatueEntry)
    (h : findMyStatue doc ip = some (nm, e)) :
    (initStatueConfig doc ip st0).1 = true ∧
    (initStatueConfig doc ip st0).2.MY_STATUE_INDEX = getStatueIndex nm ∧
    (initStatueConfig doc ip st0).2.THIS_STATUE_ID
      = 65 + getStatueIndex nm := by
  obtain ⟨i1, i2, _, _, _, _, _⟩ := applyIdentity_fields st0 nm e
  obtain ⟨p1, p2, _, _, _, _⟩ :=
    foldPopulate_ident doc (applyIdentity st0 nm e)
  unfold initStatueConfig
  simp [h, p1, p2, i1, i2, readNameAt_ident]

lemma initStatueConfig_nomatch (doc : ConfigDoc) (ip : String)
    (st0 : ConfigState) (h : findMyStatue doc ip = none) :
    (initStatueConfig doc ip st0).1 = false ∧
    (initStatueConfig doc ip st0).2.MY_STATUE_INDEX
      = st0.MY_STATUE_INDEX ∧
    (initStatueConfig doc ip st0).2.THIS_STATUE_ID
      = st0.THIS_STATUE_ID ∧
    (initStatueConfig doc ip st0).2.MY_TX_FREQ = st0.MY_TX_FREQ ∧
    (initStatueConfig doc ip st0).2.MY_STATUE_NAME
      = st0.MY_STATUE_NAME := by
  obtain ⟨p1, p2, p3, p4, _, _⟩ := foldPopulate_ident doc st0
  unfold initStatueConfig
  simp [h, p1, p2, p3, p4]

lemma getStatueIndex_inj (a b : String) (ha : 0 ≤ getStatueIndex a)
    (hab : getStatueIndex a = getStatueIndex b) :
    toUpperString a = toUpperString b := by
  simp only [getStatueIndex] at ha hab
  split_ifs at ha hab <;> simp_all

lemma getStatueIndex_lt (nm : String) :
    getStatueIndex nm < (MAX_STATUES : Int) := by
  simp only [getStatueIndex]
  split_ifs <;> decide

/-! ## Claim theorems: contact state -/

lemma statOfSlot_ne_self (my : Fin MAX_STATUES)
    (slot : Fin (MAX_STATUES - 1)) : statOfSlot my slot ≠ my := by
  revert my slot; decide

lemma statOfSlot_injective (my : Fin MAX_STATUES) :
    Function.Injective (statOfSlot my) := by
  intro a b
  revert my a b; decide

lemma statOfSlot_val (my : Fin MAX_STATUES) (slot : Fin (MAX_STATUES - 1)) :
    (statOfSlot my slot).val =
      if slot.val < my.val then slot.val else slot.val + 1 := by
  revert my slot; decide

/-- C2: for every `ContactState`, `isUnchanged()` returns true iff
`isInitialized` is true and the current link mask equals the previous
one; in particular it is false whenever `isInitialized` is false. -/
theorem isUnchanged_iff (s : ContactState) :
    (s.isUnchanged = true ↔
      s.isInitialized = true ∧ s.isLinkedMask = s.wasLinkedMask) ∧
    (s.isInitialized = false → s.isUnchanged = false) := by
  constructor
  · simp [ContactState.isUnchanged]
  · intro h
    simp [ContactState.isUnchanged, h]

/-- C3 counterexample: the claim "the bit at the node's own directory
index is always 0, so `isLinkedTo(own index)` is always false" fails.
For a node at directory index 1, mask bit 1 carries the peer at
directory index 2 (compacted slot 1), so a cycle in which that peer is
detected yields `isLinkedTo 1 = true`. -/
theorem isLinkedTo_own_index_counterexample :
    (advance (fun s => s == (1 : Fin (NUM_STATUES - 1)))
        { isInitialized := false, wasLinkedMask := 0,
          isLinkedMask := 0 }).isLinkedTo 1 = true ∧
    statOfSlot (1 : Fin MAX_STATUES) (1 : Fin (MAX_STATUES - 1)) =
      (2 : Fin MAX_STATUES) := by
  decide

/-- C3 (amended): `isLinkedTo(i)` is true iff bit `i` of the current
link mask is set, where bit `i` carries the peer at compacted slot `i`
(directory order, the node's own entry omitted, per the detector layout
of `updateDetectorThresholds`); `isLinkedTo` is false for every
`i ≥ NUM_STATUES - 1`, and `isLinked()` is true iff at least one bit is
set. -/
theorem isLinkedTo_spec (dets : Fin (NUM_STATUES - 1) → Bool)
    (prev : ContactState) (i : Nat) :
    ((advance dets prev).isLinkedTo i = true ↔
      ∃ h : i < NUM_STATUES - 1, dets ⟨i, h⟩ = true) ∧
    ((advance dets prev).isLinked = true ↔
      ∃ j, (advance dets prev).isLinkedTo j = true) :=
  ⟨isLinkedTo_advance dets prev i, isLinked_advance dets prev⟩

/-- C4: every aggregator-produced link mask fits in `NUM_STATUES - 1`
bits (the node's own entry excluded), and the peer occupying detector /
bit slot `slot` is the one at the peer's directory index with the
node's own index skipped — a fixed injective mapping never hitting the
node itself, exactly the assignment `updateDetectorThresholds`
realizes. -/
theorem linkMask_width_and_slot_mapping
    (dets : Fin (NUM_STATUES - 1) → Bool) (prev : ContactState)
    (my : Fin MAX_STATUES) (sth : Fin MAX_STATUES → ℚ)
    (det : Fin (MAX_STATUES - 1) → ℚ) :
    (advance dets prev).isLinkedMask < 2 ^ (NUM_STATUES - 1) ∧
    (updateDetectorThresholds ((my.val : Int)) sth det).detectorThresholds
        = (fun slot => sth (statOfSlot my slot)) ∧
    (∀ slot : Fin (MAX_STATUES - 1), (statOfSlot my slot).val =
      if slot.val < my.val then slot.val else slot.val + 1) ∧
    Function.Injective (statOfSlot my) ∧
    (∀ slot : Fin (MAX_STATUES - 1), statOfSlot my slot ≠ my) := by
  refine ⟨maskOfDetections_lt dets,
    (updateDetectorThresholds_det my sth det).1,
    statOfSlot_val my, statOfSlot_injective my, statOfSlot_ne_self my⟩

/-- C7: applying an unchanged configuration a second time is
idempotent — `applyConfig` maps the engine state to the same state,
and a second `updateDetectorThresholds` run with the same
`STATUE_THRESHOLDS` leaves every detector threshold identical and
reports no change (`anyChanged = false`, the flag that gates its only
observable side effect) and no out-of-bounds access. -/
theorem applyConfig_idempotent (cfg : TeensyConfig)
    (eng : Fin (MAX_STATUES - 1) → ℚ) (my : Fin MAX_STATUES)
    (sth : Fin MAX_STATUES → ℚ) (det : Fin (MAX_STATUES - 1) → ℚ) :
    applyConfig cfg (applyConfig cfg eng).2 = applyConfig cfg eng ∧
    (applyConfig cfg eng).1 = cfg ∧
    (updateDetectorThresholds ((my.val : Int)) sth
        (updateDetectorThresholds ((my.val : Int)) sth
          det).detectorThresholds).detectorThresholds =
      (updateDetectorThresholds ((my.val : Int)) sth
        det).detectorThresholds ∧
    (updateDetectorThresholds ((my.val : Int)) sth
        (updateDetectorThresholds ((my.val : Int)) sth
          det).detectorThresholds).anyChanged = false ∧
    (updateDetectorThresholds ((my.val : Int)) sth
        (updateDetectorThresholds ((my.val : Int)) sth
          det).detectorThresholds).oob = false := by
  obtain ⟨h1, _⟩ := updateDetectorThresholds_det my sth det
  rw [h1, updateDetectorThresholds_stable my sth]
  exact ⟨rfl, rfl, rfl, rfl, rfl⟩

/-- C9: updating a single statue's threshold is isolated: after
rerunning `updateDetectorThresholds` with only statue `j`'s entry of
`STATUE_THRESHOLDS` changed to `v`, the detector slot carrying `j`
holds `v` and reports above-threshold exactly for magnitudes `≥ v`,
while every other detector's threshold and detection outcome is
unchanged. -/
theorem threshold_update_isolated (my j : Fin MAX_STATUES)
    (sth : Fin MAX_STATUES → ℚ) (v : ℚ)
    (det0 : Fin (MAX_STATUES - 1) → ℚ)
    (mags : Fin (NUM_STATUES - 1) → ℚ) :
    ∀ slot : Fin (MAX_STATUES - 1),
      ((statOfSlot my slot = j →
        (updateDetectorThresholds ((my.val : Int)) (Function.update sth j v)
          (updateDetectorThresholds ((my.val : Int)) sth
            det0).detectorThresholds).detectorThresholds slot = v ∧
        (sampleDetections mags
          (updateDetectorThresholds ((my.val : Int)) (Function.update sth j v)
            (updateDetectorThresholds ((my.val : Int)) sth
              det0).detectorThresholds).detectorThresholds slot = true ↔
          v ≤ mags slot)) ∧
      (statOfSlot my slot ≠ j →
        (updateDetectorThresholds ((my.val : Int)) (Function.update sth j v)
          (updateDetectorThresholds ((my.val : Int)) sth
            det0).detectorThresholds).detectorThresholds slot =
        (updateDetectorThresholds ((my.val : Int)) sth
          det0).detectorThresholds slot ∧
        sampleDetections mags
          (updateDetectorThresholds ((my.val : Int)) (Function.update sth j v)
            (updateDetectorThresholds ((my.val : Int)) sth
              det0).detectorThresholds).detectorThresholds slot =
        sampleDetections mags
          (updateDetectorThresholds ((my.val : Int)) sth
            det0).detectorThresholds slot)) := by
  intro slot
  obtain ⟨h1, _⟩ := updateDetectorThresholds_det my sth det0
  obtain ⟨h2, _⟩ := updateDetectorThresholds_det my
    (Function.update sth j v) ((updateDetectorThresholds ((my.val : Int))
      sth det0).detectorThresholds)
  rw [h2, h1]
  constructor
  · intro hslot
    have hv : Function.update sth j v (statOfSlot my slot) = v := by
      rw [hslot, Function.update_same]
    simp [sampleDetections, hv]
  · intro hslot
    have hv : Function.update sth j v (statOfSlot my slot) =
        sth (statOfSlot my slot) := Function.update_noteq hslot v sth
    simp [sampleDetections, hv]

/-- C1 counterexample: in the two-entry document
`{"ariel": {ip_address: A}, "sophia": {}}` whose first entry carries the
node's address, `initStatueConfig` sets `MY_STATUE_INDEX = 2` — the
fixed table index of the name "ariel" — although the matched entry sits
at document position 0 and the document has only 2 entries, so the
index is neither the document position nor inside `[0, N)`. -/
theorem identity_index_counterexample :
    (initStatueConfig
        [("ariel", { ip_address := some "10.0.0.1" }), ("sophia", {})]
        "10.0.0.1"
        (initialConfigState fun _ => defaultThreshold)).2.MY_STATUE_INDEX
      = 2 ∧
    matchedPosition
        [("ariel", { ip_address := some "10.0.0.1" }),
         ("sophia", ({} : StatueEntry))] "10.0.0.1" = some 0 ∧
    ([("ariel", ({ ip_address := some "10.0.0.1" } : StatueEntry)),
      ("sophia", {})] : ConfigDoc).length = 2 := by
  decide

/-- C1 (amended): identity resolution assigns indices from the fixed
statue-name table, not from document positions: the node's index is
`getStatueIndex` of the first entry carrying its address, always below
`MAX_STATUES`; distinct recognized names receive distinct indices; and
the index coincides with the matched entry's document position exactly
when the document lists the statues in canonical table order. -/
theorem identity_resolution_by_name (doc : ConfigDoc) (ip : String)
    (st0 : ConfigState) (nm : String) (e : StatueEntry)
    (hfind : findMyStatue doc ip = some (nm, e)) :
    (initStatueConfig doc ip st0).2.MY_STATUE_INDEX = getStatueIndex nm ∧
    getStatueIndex nm < (MAX_STATUES : Int) ∧
    (∀ a b : String, 0 ≤ getStatueIndex a →
      getStatueIndex a = getStatueIndex b →
        toUpperString a = toUpperString b) ∧
    ((∀ (k : Nat) (hk : k < doc.length),
        getStatueIndex (doc.get ⟨k, hk⟩).1 = (k : Int)) →
      matchedPosition doc ip = some (getStatueIndex nm).toNat) := by
  obtain ⟨_, hMY, _⟩ := initStatueConfig_found doc ip st0 nm e hfind
  refine ⟨hMY, getStatueIndex_lt nm, getStatueIndex_inj, ?_⟩
  intro hcanon
  obtain ⟨k, hk1, hk2, hk3⟩ := find_matchedPosition doc ip nm e hfind
  have hgk := hcanon k hk2
  rw [hk3] at hgk
  rw [hk1, hgk, Int.toNat_natCast]

/-- C1 witness: on the compiled-in default document, the node with
ELEKTRA's address resolves to index 1, which is also the entry's
document position. -/
theorem identity_resolution_by_name_witness :
    (initStatueConfig defaultConfigDoc "192.168.4.23"
        (initialConfigState fun _ => defaultThreshold)).2.MY_STATUE_INDEX
      = getStatueIndex "elektra" ∧
    matchedPosition defaultConfigDoc "192.168.4.23" = some 1 := by
  obtain ⟨h1, _, _, h4⟩ := identity_resolution_by_name defaultConfigDoc
    "192.168.4.23" (initialConfigState fun _ => defaultThreshold)
    "elektra"
    ⟨some 12274, some defaultThreshold, some "04:e9:e5:19:06:2f",
      some "192.168.4.23"⟩
    (by decide)
  refine ⟨h1, ?_⟩
  have hpos := h4 (by decide)
  rw [hpos]
  decide

/-- C5: when no directory entry carries the node's address,
`initStatueConfig` returns `false` and the node keeps the hardcoded
default identity: index 0, statue ID `'A'` (65), transmit frequency
10077 Hz, and the name EROS. -/
theorem no_match_fallback (doc : ConfigDoc) (ip : String)
    (det0 : Fin (MAX_STATUES - 1) → ℚ)
    (h : ∀ kv ∈ doc, kv.2.ip_address ≠ some ip) :
    (initStatueConfig doc ip (initialConfigState det0)).1 = false ∧
    (initStatueConfig doc ip
        (initialConfigState det0)).2.MY_STATUE_INDEX = 0 ∧
    (initStatueConfig doc ip
        (initialConfigState det0)).2.THIS_STATUE_ID = 65 ∧
    (initStatueConfig doc ip
        (initialConfigState det0)).2.MY_TX_FREQ = 10077 ∧
    (initStatueConfig doc ip
        (initialConfigState det0)).2.MY_STATUE_NAME = "EROS" := by
  obtain ⟨q1, q2, q3, q4, q5⟩ := initStatueConfig_nomatch doc ip
    (initialConfigState det0) (findMyStatue_none doc ip h)
  exact ⟨q1, q2, q3, q4, q5⟩

/-- C5 witness: a node whose address appears nowhere in the default
document falls back to the default identity. -/
theorem no_match_fallback_witness :
    (initStatueConfig defaultConfigDoc "10.0.0.99"
        (initialConfigState fun _ => defaultThreshold)).1 = false ∧
    (initStatueConfig defaultConfigDoc "10.0.0.99"
        (initialConfigState fun _ => defaultThreshold)).2.MY_STATUE_INDEX
      = 0 ∧
    (initStatueConfig defaultConfigDoc "10.0.0.99"
        (initialConfigState fun _ => defaultThreshold)).2.THIS_STATUE_ID
      = 65 ∧
    (initStatueConfig defaultConfigDoc "10.0.0.99"
        (initialConfigState fun _ => defaultThreshold)).2.MY_TX_FREQ
      = 10077 ∧
    (initStatueConfig defaultConfigDoc "10.0.0.99"
        (initialConfigState fun _ => defaultThreshold)).2.MY_STATUE_NAME
      = "EROS" :=
  no_match_fallback defaultConfigDoc "10.0.0.99"
    (fun _ => defaultThreshold) (by decide)

lemma initStatueConfig_entry (pre post : ConfigDoc) (nm : String)
    (e : StatueEntry) (i : Fin MAX_STATUES) (ip : String)
    (st0 : ConfigState)
    (hpre : ∀ kv ∈ pre, getStatueIndex kv.1 ≠ (i.val : Int))
    (hpost : ∀ kv ∈ post, getStatueIndex kv.1 ≠ (i.val : Int))
    (hnm : getStatueIndex nm = (i.val : Int)) :
    (initStatueConfig (pre ++ (nm, e) :: post) ip
        st0).2.STATUE_FREQUENCIES i
      = e.emit.getD (st0.STATUE_FREQUENCIES i) ∧
    (initStatueConfig (pre ++ (nm, e) :: post) ip
        st0).2.STATUE_THRESHOLDS i
      = e.threshold.getD (st0.STATUE_THRESHOLDS i) ∧
    (initStatueConfig (pre ++ (nm, e) :: post) ip st0).2.STATUE_NAMES i
      = truncate9 (toUpperString nm) := by
  obtain ⟨st1, hF, hT, hN, e1, e2, e3⟩ :=
    initStatueConfig_secondPass (pre ++ (nm, e) :: post) ip st0
  rw [e1, e2, e3, List.foldl_append, List.foldl_cons]
  obtain ⟨a1, a2, a3⟩ := foldPopulate_slot_ne pre st1 i hpre
  obtain ⟨b1, b2, b3⟩ := populateEntry_slot_eq
    (pre.foldl (fun st kv => populateEntry st kv.1 kv.2) st1) nm e i hnm
  obtain ⟨c1, c2, c3⟩ := foldPopulate_slot_ne post
    (populateEntry (pre.foldl (fun st kv => populateEntry st kv.1 kv.2) st1)
      nm e) i hpost
  refine ⟨?_, ?_, ?_⟩
  · rw [c1, b1, a1, congrFun hF i]
  · rw [c2, b2, a2, congrFun hT i]
  · rw [c3, b3]

/-- C6: the second pass populates the directory arrays for every
recognized entry, with no dependence on which entry (if any) matched
the node's address: for a document containing exactly one entry with
table index `i`, the final frequency, threshold, and name stored at
slot `i` come from that entry (present fields applied, absent fields
left at the prior value). -/
theorem directory_population (pre post : ConfigDoc) (nm : String)
    (e : StatueEntry) (i : Fin MAX_STATUES) (ip : String)
    (st0 : ConfigState)
    (hpre : ∀ kv ∈ pre, getStatueIndex kv.1 ≠ (i.val : Int))
    (hpost : ∀ kv ∈ post, getStatueIndex kv.1 ≠ (i.val : Int))
    (hnm : getStatueIndex nm = (i.val : Int)) :
    (initStatueConfig (pre ++ (nm, e) :: post) ip
        st0).2.STATUE_FREQUENCIES i
      = e.emit.getD (st0.STATUE_FREQUENCIES i) ∧
    (initStatueConfig (pre ++ (nm, e) :: post) ip
        st0).2.STATUE_THRESHOLDS i
      = e.threshold.getD (st0.STATUE_THRESHOLDS i) ∧
    (initStatueConfig (pre ++ (nm, e) :: post) ip st0).2.STATUE_NAMES i
      = truncate9 (toUpperString nm) :=
  initStatueConfig_entry pre post nm e i ip st0 hpre hpost hnm

/-- C6 witness: in a three-entry document in which no entry matches the
node's address, ELEKTRA's slot still receives the entry's emit
frequency, the prior default threshold (no `threshold` field present),
and the uppercased name. -/
theorem directory_population_witness :
    getStatueIndex "elektra" = (((1 : Fin MAX_STATUES)).val : Int) ∧
    (initStatueConfig
        [("eros", {}), ("elektra", { emit := some 999 }), ("ariel", {})]
        "10.0.0.7"
        (initialConfigState fun _ =>
          defaultThreshold)).2.STATUE_FREQUENCIES 1
      = (some (999 : Int)).getD
          ((initialConfigState fun _ =>
            defaultThreshold).STATUE_FREQUENCIES 1) :=
  ⟨by decide,
    (directory_population [("eros", {})] [("ariel", {})] "elektra"
      { emit := some 999 } 1 "10.0.0.7"
      (initialConfigState fun _ => defaultThreshold)
      (by decide) (by decide) (by decide)).1⟩

/-- C8: directory parsing is tolerant of missing optional fields: for
the unique entry with table index `i`, a missing `emit` leaves the
stored frequency at its prior value and a missing `threshold` leaves
the stored threshold at its prior value, while each field that is
present is applied (and `mac_address` is never stored at all). -/
theorem missing_fields_tolerated (pre post : ConfigDoc) (nm : String)
    (e : StatueEntry) (i : Fin MAX_STATUES) (ip : String)
    (st0 : ConfigState)
    (hpre : ∀ kv ∈ pre, getStatueIndex kv.1 ≠ (i.val : Int))
    (hpost : ∀ kv ∈ post, getStatueIndex kv.1 ≠ (i.val : Int))
    (hnm : getStatueIndex nm = (i.val : Int)) :
    (e.emit = none →
      (initStatueConfig (pre ++ (nm, e) :: post) ip
          st0).2.STATUE_FREQUENCIES i = st0.STATUE_FREQUENCIES i) ∧
    (∀ f, e.emit = some f →
      (initStatueConfig (pre ++ (nm, e) :: post) ip
          st0).2.STATUE_FREQUENCIES i = f) ∧
    (e.threshold = none →
      (initStatueConfig (pre ++ (nm, e) :: post) ip
          st0).2.STATUE_THRESHOLDS i = st0.STATUE_THRESHOLDS i) ∧
    (∀ t, e.threshold = some t →
      (initStatueConfig (pre ++ (nm, e) :: post) ip
          st0).2.STATUE_THRESHOLDS i = t) ∧
    (initStatueConfig (pre ++ (nm, e) :: post) ip st0).2.STATUE_NAMES i
      = truncate9 (toUpperString nm) := by
  obtain ⟨m1, m2, m3⟩ :=
    initStatueConfig_entry pre post nm e i ip st0 hpre hpost hnm
  refine ⟨?_, ?_, ?_, ?_, m3⟩
  · intro hnone
    rw [m1, hnone]
    rfl
  · intro f hf
    rw [m1, hf]
    rfl
  · intro hnone
    rw [m2, hnone]
    rfl
  · intro t ht
    rw [m2, ht]
    rfl

/-- C8 witness: an entry for SOPHIA with a `threshold` but no `emit`
leaves slot 3's frequency at the boot default while applying the new
threshold. -/
theorem missing_fields_tolerated_witness :
    (initStatueConfig
        [("sophia", { threshold := some (oneOver 20 (by decide)) }),
         ("ultimo", {})] "10.0.0.8"
        (initialConfigState fun _ =>
          defaultThreshold)).2.STATUE_FREQUENCIES 3
      = (initialConfigState fun _ =>
          defaultThreshold).STATUE_FREQUENCIES 3 ∧
    (initStatueConfig
        [("sophia", { threshold := some (oneOver 20 (by decide)) }),
         ("ultimo", {})] "10.0.0.8"
        (initialConfigState fun _ =>
          defaultThreshold)).2.STATUE_THRESHOLDS 3
      = oneOver 20 (by decide) := by
  obtain ⟨w1, w2, w3, w4, w5⟩ := missing_fields_tolerated []
    [("ultimo", {})] "sophia" { threshold := some (oneOver 20 (by decide)) }
    3 "10.0.0.8" (initialConfigState fun _ => defaultThreshold)
    (by decide) (by decide) (by decide)
  exact ⟨w1 rfl, w4 (oneOver 20 (by decide)) rfl⟩

/-- C10 at its failing input: a directory document whose matching entry
is keyed by a name outside the five-name table drives
`MY_STATUE_INDEX` to `-1`, after which `initStatueConfig` indexes
`STATUE_NAMES[-1]` and the detector loop walks `detectorIndex` past the
end of `detectorThresholds` — out-of-bounds accesses recorded by the
embedding's `oobAccess` flag. -/
theorem unknown_name_out_of_bounds :
    (initStatueConfig
        [("zeus", { ip_address := some "10.0.0.9" }), ("elektra", {})]
        "10.0.0.9"
        (initialConfigState fun _ => defaultThreshold)).2.MY_STATUE_INDEX
      = -1 ∧
    (initStatueConfig
        [("zeus", { ip_address := some "10.0.0.9" }), ("elektra", {})]
        "10.0.0.9"
        (initialConfigState fun _ => defaultThreshold)).2.oobAccess
      = true ∧
    getStatueIndex "zeus" = -1 ∧
    (updateDetectorThresholds (-1) (fun _ => defaultThreshold)
      (fun _ => defaultThreshold)).oob = true := by
  decide

end FirstContact